import Mathlib

/-!
R2000-Visualizer, `Applications/TcpAcquisition.cpp`.

A shallow embedding of the program's `main`: the start-up phase as a function
of what its collaborators answer, and the acquisition loop as a step function
on an explicit state, interleaved with the signal handler and the two data-link
callbacks.
-/

namespace TcpAcquisition

/-! ## Data model -/

/-- Modelled from the spec: the scan type of `DataLink/DataLink.hpp` is not in
the source tree. A snapshot is an immutable value carrying a timestamp (the
ticks of a `steady_clock` time point) and its measurement data. -/
structure Scan where
  timestamp : Nat
  samples : List Nat
deriving DecidableEq

/-- The accessor `scan->getTimestamp()`. -/
def Scan.getTimestamp (scan : Scan) : Nat := scan.timestamp

/-- The type `Device::DataLink::SharedScan`: a shared pointer to a scan, null
when it is `none`. -/
abbrev SharedScan := Option Scan

/-- Modelled from the spec: `Device::RequestResult` is declared in the device
library, not in the source tree. An outcome is `SUCCESS` or a failure with a
reason code. -/
inductive RequestResult
  | SUCCESS
  | FAILURE (code : Nat)
deriving DecidableEq

/-- The live data link behind `buildResult.second`. -/
structure DataLink where
  handle : Nat
deriving DecidableEq

/-- The value of `EXIT_SUCCESS` of `<cstdlib>`. -/
def EXIT_SUCCESS : Int := 0

/-- The value of `EXIT_FAILURE` of `<cstdlib>`. -/
def EXIT_FAILURE : Int := 1

/-- What `boost::asio::ip::address::from_string(address, errorCode)` leaves
behind: whether `errorCode` is set, and whether the address read is a v4 one. -/
structure AddressParse where
  errorCode : Bool
  is_v4 : Bool
deriving DecidableEq

/-- The function `isValidIpv4` (lines 49-53), with the library's `from_string`
as a parameter. -/
def isValidIpv4 (from_string : String → AddressParse) (address : String) : Bool :=
  let parsed := from_string address
  !parsed.errorCode && parsed.is_v4

/-- How the `try` block of lines 77-81 ends: with one of the two exceptions
that `main` catches (`unknown_option`, `invalid_command_line_syntax`), with
some other exception, or with the options stored in `programOptions`
(`help` is `programOptions.count("help")`, `address` the value of the
address option when it was given). -/
inductive CommandLine
  | unknown_option (name : String)
  | invalid_command_line (name what : String)
  | other_error
  | stored (help : Nat) (address : Option String)
deriving DecidableEq

/-- The three signals for which `main` installs `interrupt`. -/
inductive Signal
  | SIGTERM
  | SIGKILL
  | SIGINT
deriving DecidableEq

/-- The messages `main` writes to `std::clog` and `std::cout`. -/
inductive Message
  | unknownOption
  | invalidCommandLine
  | usage
  | missingMandatoryArgument
  | mustSpecifyAddress
  | mustSpecifyValidIpv4
  | couldNotConfigureBusy
  | couldNotConfigure (result : RequestResult)
  | deviceConfigured
  | couldNotEstablishDataLink (result : RequestResult)
deriving DecidableEq

/-- The calls the main thread makes, in program order. -/
inductive Event
  | signal (sig : Signal)
  | parse
  | clog (message : Message)
  | cout (message : Message)
  | notify
  | from_string (address : String)
  | makeShared (address : String)
  | asyncExecute
  | configureWait
  | configureGet
  | build
  | buildWait
  | buildGet
  | viewerCreate
  | handleAccess
  | addOnDataLinkConnectionLostCallback
  | addOnNewScanAvailableCallback
  | now
  | spinOnce
  | atomic_load (scan : SharedScan)
  | convert (scan : Scan)
  | removePointCloud
  | addPointCloud (scan : Scan)
  | setPointCloudRenderingProperties
  | viewerClose
deriving DecidableEq

/-- How a run of `main` stands: it returned a status, it is still in the
acquisition loop, an exception left `main`, or it went through the empty
handle of a build that answered `SUCCESS`. -/
inductive Status
  | returned (code : Int)
  | running
  | terminated
  | nullHandle
deriving DecidableEq

/-- What the collaborators of the start-up phase answer. -/
structure Collaborators where
  from_string : String → AddressParse
  commandLine : CommandLine
  configureFuture : Option RequestResult
  buildResult : RequestResult × Option DataLink
  now : Nat

/-! ## Start-up phase (lines 63-176) -/

/-- Lines 63-65. -/
def installSignals : List Event :=
  [Event.signal Signal.SIGTERM, Event.signal Signal.SIGKILL, Event.signal Signal.SIGINT]

/-- The start-up phase either leaves `main` or reaches line 178. -/
inductive Startup
  | exit (status : Status) (trace : List Event)
  | loop (trace : List Event)
deriving DecidableEq

/-- Lines 63-176 of `main`. -/
def startup (c : Collaborators) : Startup :=
  let t0 := installSignals ++ [Event.parse]
  match c.commandLine with
  | CommandLine.unknown_option _ =>
    Startup.exit (Status.returned EXIT_FAILURE) (t0 ++ [Event.clog Message.unknownOption])
  | CommandLine.invalid_command_line _ _ =>
    Startup.exit (Status.returned EXIT_FAILURE) (t0 ++ [Event.clog Message.invalidCommandLine])
  | CommandLine.other_error => Startup.exit Status.terminated t0
  | CommandLine.stored help address =>
    if help > 0 then
      Startup.exit (Status.returned EXIT_SUCCESS) (t0 ++ [Event.cout Message.usage])
    else
      let t1 := t0 ++ [Event.notify]
      match address with
      | none =>
        Startup.exit (Status.returned EXIT_FAILURE)
          (t1 ++ [Event.clog Message.missingMandatoryArgument, Event.clog Message.usage])
      | some deviceAddressAsString =>
        if deviceAddressAsString = "" then
          Startup.exit (Status.returned EXIT_FAILURE)
            (t1 ++ [Event.clog Message.mustSpecifyAddress])
        else
          let t2 := t1 ++ [Event.from_string deviceAddressAsString]
          if !isValidIpv4 c.from_string deviceAddressAsString then
            Startup.exit (Status.returned EXIT_FAILURE)
              (t2 ++ [Event.clog Message.mustSpecifyValidIpv4])
          else
            let t3 := t2 ++ [Event.makeShared deviceAddressAsString, Event.asyncExecute]
            match c.configureFuture with
            | none =>
              Startup.exit (Status.returned EXIT_FAILURE)
                (t3 ++ [Event.clog Message.couldNotConfigureBusy])
            | some configureResult =>
              let t4 := t3 ++ [Event.configureWait, Event.configureGet]
              if configureResult ≠ RequestResult.SUCCESS then
                Startup.exit (Status.returned EXIT_FAILURE)
                  (t4 ++ [Event.clog (Message.couldNotConfigure configureResult)])
              else
                let t5 := t4 ++ [Event.cout Message.deviceConfigured, Event.build,
                  Event.buildWait, Event.buildGet]
                let asyncRequestResult := c.buildResult.1
                if asyncRequestResult ≠ RequestResult.SUCCESS then
                  Startup.exit (Status.returned EXIT_FAILURE)
                    (t5 ++ [Event.clog (Message.couldNotEstablishDataLink asyncRequestResult)])
                else
                  let t6 := t5 ++ [Event.viewerCreate, Event.handleAccess]
                  match c.buildResult.2 with
                  | none => Startup.exit Status.nullHandle t6
                  | some _ =>
                    Startup.loop (t6 ++ [Event.addOnDataLinkConnectionLostCallback,
                      Event.addOnNewScanAvailableCallback, Event.now])

/-! ## Acquisition loop (lines 178-195) -/

/-- The statement the main thread executes next: the loop condition
(line 179), `viewer.spinOnce(50)` (line 180), the load of `sharedScan` with
the rest of the body (lines 181-191), `viewer.close()` with the `return`
(lines 194-195), or nothing more. -/
inductive Pc
  | condition
  | spinOnce
  | load
  | close
  | exited
deriving DecidableEq

/-- The variables of the loop and the calls made so far. -/
structure State where
  pc : Pc
  interruptProgram : Bool
  deviceHasDisconnected : Bool
  sharedScan : SharedScan
  timestamp : Nat
  trace : List Event
deriving DecidableEq

/-- The store `std::atomic_store_explicit(&sharedScan, newScan, release)`. -/
def atomic_store (_slot : SharedScan) (newScan : SharedScan) : SharedScan := newScan

/-- The load `std::atomic_load_explicit(&sharedScan, acquire)`. -/
def atomic_load (slot : SharedScan) : SharedScan := slot

/-- One statement of the main thread; `wasStopped` is what
`viewer.wasStopped()` answers at that moment. -/
def mainStep (wasStopped : Bool) (s : State) : State :=
  match s.pc with
  | Pc.condition =>
    if !wasStopped && !s.interruptProgram && !s.deviceHasDisconnected then
      { s with pc := Pc.spinOnce }
    else
      { s with pc := Pc.close }
  | Pc.spinOnce => { s with pc := Pc.load, trace := s.trace ++ [Event.spinOnce] }
  | Pc.load =>
    match atomic_load s.sharedScan with
    | none => { s with pc := Pc.condition, trace := s.trace ++ [Event.atomic_load none] }
    | some scan =>
      if scan.getTimestamp = s.timestamp then
        { s with pc := Pc.condition, trace := s.trace ++ [Event.atomic_load (some scan)] }
      else
        { s with
          pc := Pc.condition
          timestamp := scan.getTimestamp
          trace := s.trace ++ [Event.atomic_load (some scan), Event.convert scan,
            Event.removePointCloud, Event.addPointCloud scan,
            Event.setPointCloudRenderingProperties] }
  | Pc.close => { s with pc := Pc.exited, trace := s.trace ++ [Event.viewerClose] }
  | Pc.exited => s

/-- What can happen next: the signal handler `interrupt` runs (lines 57-59),
the connection-lost callback runs (lines 170-173), the new-scan callback runs
(lines 174-176), or the main thread executes its next statement. -/
inductive Action
  | interrupt
  | connectionLost
  | newScan (scan : SharedScan)
  | main (wasStopped : Bool)
deriving DecidableEq

/-- One action on the state. -/
def step (a : Action) (s : State) : State :=
  match a with
  | Action.interrupt => { s with interruptProgram := true }
  | Action.connectionLost => { s with deviceHasDisconnected := true }
  | Action.newScan scan => { s with sharedScan := atomic_store s.sharedScan scan }
  | Action.main wasStopped => mainStep wasStopped s

/-- A schedule of actions, from the left. -/
def run (schedule : List Action) (s : State) : State :=
  schedule.foldl (fun st a => step a st) s

/-- The state at line 178, once `timestamp` holds the clock reading. -/
def loopEntry (now : Nat) (trace : List Event) : State :=
  { pc := Pc.condition
    interruptProgram := false
    deviceHasDisconnected := false
    sharedScan := none
    timestamp := now
    trace := trace }

/-- A run of `main`: its status and the calls it made. -/
structure Run where
  status : Status
  trace : List Event
deriving DecidableEq

/-- The status of `main` in a state of the loop: line 195 returns
`EXIT_SUCCESS`. -/
def exitStatus (s : State) : Status :=
  if s.pc = Pc.exited then Status.returned EXIT_SUCCESS else Status.running

/-- The function `main` under a schedule for its loop. -/
def main (c : Collaborators) (schedule : List Action) : Run :=
  match startup c with
  | Startup.exit status trace => { status := status, trace := trace }
  | Startup.loop trace =>
    let s := run schedule (loopEntry c.now trace)
    { status := exitStatus s, trace := s.trace }

/-! ## Vocabulary of the properties -/

/-- The values the new-scan callback was run with in a schedule, in order:
the publishes into the mailbox. -/
def published : List Action → List SharedScan
  | [] => []
  | Action.newScan scan :: schedule => scan :: published schedule
  | _ :: schedule => published schedule

/-- The calls of lines 181-191 when the load returns `scan` while the
variable `timestamp` holds `timestamp`. -/
def cycleBody (timestamp : Nat) (scan : SharedScan) : List Event :=
  match scan with
  | none => [Event.atomic_load none]
  | some sc =>
    if sc.getTimestamp = timestamp then [Event.atomic_load (some sc)]
    else [Event.atomic_load (some sc), Event.convert sc, Event.removePointCloud,
      Event.addPointCloud sc, Event.setPointCloudRenderingProperties]

/-- The scans handed to the viewer (`addPointCloud`), in order. -/
def rendered : List Event → List Scan
  | [] => []
  | Event.addPointCloud scan :: events => scan :: rendered events
  | _ :: events => rendered events

/-- The scans converted (`converter.convert`), in order. -/
def converted : List Event → List Scan
  | [] => []
  | Event.convert scan :: events => scan :: converted events
  | _ :: events => converted events

/-- The results of the loads of `sharedScan`, in order. -/
def loads : List Event → List SharedScan
  | [] => []
  | Event.atomic_load scan :: events => scan :: loads events
  | _ :: events => loads events

/-- The number of `spinOnce` calls. -/
def spins : List Event → Nat
  | [] => 0
  | Event.spinOnce :: events => spins events + 1
  | _ :: events => spins events

/-- Whether a stop flag of the program is set: `interruptProgram` or
`deviceHasDisconnected`. -/
def stopFlag (s : State) : Bool := s.interruptProgram || s.deviceHasDisconnected

/-- The number of statements of the main thread in a schedule. -/
def mainSteps : List Action → Nat
  | [] => 0
  | Action.main _ :: schedule => mainSteps schedule + 1
  | _ :: schedule => mainSteps schedule

/-- The calls of one pass through lines 186-191 for a scan. -/
def renderCalls (scan : Scan) : List Event :=
  [Event.convert scan, Event.removePointCloud, Event.addPointCloud scan,
    Event.setPointCloudRenderingProperties]

/-- The calls that touch the device: creating it, configuring it, building
the data link, reading the handle, registering the callbacks. -/
def Event.isDeviceInteraction : Event → Bool
  | Event.makeShared _ => true
  | Event.asyncExecute => true
  | Event.configureWait => true
  | Event.configureGet => true
  | Event.build => true
  | Event.buildWait => true
  | Event.buildGet => true
  | Event.handleAccess => true
  | Event.addOnDataLinkConnectionLostCallback => true
  | Event.addOnNewScanAvailableCallback => true
  | _ => false

/-- The calls of the acquisition loop and of the viewer. -/
def Event.isLoopCall : Event → Bool
  | Event.viewerCreate => true
  | Event.now => true
  | Event.spinOnce => true
  | Event.atomic_load _ => true
  | Event.convert _ => true
  | Event.removePointCloud => true
  | Event.addPointCloud _ => true
  | Event.setPointCloudRenderingProperties => true
  | Event.viewerClose => true
  | _ => false

/-- The calls that validate the address: `notify` and `from_string`. -/
def Event.isAddressValidation : Event → Bool
  | Event.notify => true
  | Event.from_string _ => true
  | _ => false

/-- The calls of a start-up phase that passes every stage, up to line 178. -/
def entryTrace (address : String) : List Event :=
  installSignals ++ [Event.parse, Event.notify, Event.from_string address,
    Event.makeShared address, Event.asyncExecute, Event.configureWait, Event.configureGet,
    Event.cout Message.deviceConfigured, Event.build, Event.buildWait, Event.buildGet,
    Event.viewerCreate, Event.handleAccess, Event.addOnDataLinkConnectionLostCallback,
    Event.addOnNewScanAvailableCallback, Event.now]

/-- The start-up phase case by case: which answers of the collaborators lead
to which exit, or to the loop. -/
inductive StartupCase (c : Collaborators) : Startup → Prop
  | unknownOption (name : String) (hcl : c.commandLine = CommandLine.unknown_option name) :
    StartupCase c (Startup.exit (Status.returned EXIT_FAILURE)
      (installSignals ++ [Event.parse, Event.clog Message.unknownOption]))
  | invalidCommandLine (name what : String)
    (hcl : c.commandLine = CommandLine.invalid_command_line name what) :
    StartupCase c (Startup.exit (Status.returned EXIT_FAILURE)
      (installSignals ++ [Event.parse, Event.clog Message.invalidCommandLine]))
  | otherError (hcl : c.commandLine = CommandLine.other_error) :
    StartupCase c (Startup.exit Status.terminated (installSignals ++ [Event.parse]))
  | helpRequested (help : Nat) (address : Option String)
    (hcl : c.commandLine = CommandLine.stored help address) (hhelp : help > 0) :
    StartupCase c (Startup.exit (Status.returned EXIT_SUCCESS)
      (installSignals ++ [Event.parse, Event.cout Message.usage]))
  | missingAddress (hcl : c.commandLine = CommandLine.stored 0 none) :
    StartupCase c (Startup.exit (Status.returned EXIT_FAILURE)
      (installSignals ++ [Event.parse, Event.notify,
        Event.clog Message.missingMandatoryArgument, Event.clog Message.usage]))
  | emptyAddress (hcl : c.commandLine = CommandLine.stored 0 (some "")) :
    StartupCase c (Startup.exit (Status.returned EXIT_FAILURE)
      (installSignals ++ [Event.parse, Event.notify, Event.clog Message.mustSpecifyAddress]))
  | invalidAddress (address : String)
    (hcl : c.commandLine = CommandLine.stored 0 (some address)) (hne : address ≠ "")
    (hv4 : isValidIpv4 c.from_string address = false) :
    StartupCase c (Startup.exit (Status.returned EXIT_FAILURE)
      (installSignals ++ [Event.parse, Event.notify, Event.from_string address,
        Event.clog Message.mustSpecifyValidIpv4]))
  | busy (address : String)
    (hcl : c.commandLine = CommandLine.stored 0 (some address)) (hne : address ≠ "")
    (hv4 : isValidIpv4 c.from_string address = true) (hcfg : c.configureFuture = none) :
    StartupCase c (Startup.exit (Status.returned EXIT_FAILURE)
      (installSignals ++ [Event.parse, Event.notify, Event.from_string address,
        Event.makeShared address, Event.asyncExecute,
        Event.clog Message.couldNotConfigureBusy]))
  | configureFailed (address : String) (result : RequestResult)
    (hcl : c.commandLine = CommandLine.stored 0 (some address)) (hne : address ≠ "")
    (hv4 : isValidIpv4 c.from_string address = true)
    (hcfg : c.configureFuture = some result) (hres : result ≠ RequestResult.SUCCESS) :
    StartupCase c (Startup.exit (Status.returned EXIT_FAILURE)
      (installSignals ++ [Event.parse, Event.notify, Event.from_string address,
        Event.makeShared address, Event.asyncExecute, Event.configureWait,
        Event.configureGet, Event.clog (Message.couldNotConfigure result)]))
  | buildFailed (address : String)
    (hcl : c.commandLine = CommandLine.stored 0 (some address)) (hne : address ≠ "")
    (hv4 : isValidIpv4 c.from_string address = true)
    (hcfg : c.configureFuture = some RequestResult.SUCCESS)
    (hb1 : c.buildResult.1 ≠ RequestResult.SUCCESS) :
    StartupCase c (Startup.exit (Status.returned EXIT_FAILURE)
      (installSignals ++ [Event.parse, Event.notify, Event.from_string address,
        Event.makeShared address, Event.asyncExecute, Event.configureWait,
        Event.configureGet, Event.cout Message.deviceConfigured, Event.build,
        Event.buildWait, Event.buildGet,
        Event.clog (Message.couldNotEstablishDataLink c.buildResult.1)]))
  | emptyHandle (address : String)
    (hcl : c.commandLine = CommandLine.stored 0 (some address)) (hne : address ≠ "")
    (hv4 : isValidIpv4 c.from_string address = true)
    (hcfg : c.configureFuture = some RequestResult.SUCCESS)
    (hb1 : c.buildResult.1 = RequestResult.SUCCESS) (hb2 : c.buildResult.2 = none) :
    StartupCase c (Startup.exit Status.nullHandle
      (installSignals ++ [Event.parse, Event.notify, Event.from_string address,
        Event.makeShared address, Event.asyncExecute, Event.configureWait,
        Event.configureGet, Event.cout Message.deviceConfigured, Event.build,
        Event.buildWait, Event.buildGet, Event.viewerCreate, Event.handleAccess]))
  | entersLoop (address : String) (link : DataLink)
    (hcl : c.commandLine = CommandLine.stored 0 (some address)) (hne : address ≠ "")
    (hv4 : isValidIpv4 c.from_string address = true)
    (hcfg : c.configureFuture = some RequestResult.SUCCESS)
    (hb1 : c.buildResult.1 = RequestResult.SUCCESS) (hb2 : c.buildResult.2 = some link) :
    StartupCase c (Startup.loop (entryTrace address))

/-- The timestamp the loop compares a loaded scan with: the timestamp of the
last scan handed to the viewer, or, as long as none was, the clock reading
`now` of line 178. -/
def lastTimestamp (now : Nat) (trace : List Event) : Nat :=
  match (rendered trace).getLast? with
  | some scan => scan.getTimestamp
  | none => now

/-- The loop's bookkeeping of what it rendered: successive rendered scans
differ in timestamp, and `timestamp` is the timestamp of the last one. -/
def RenderInv (s : State) : Prop :=
  List.Chain' (fun a b : Scan => a.getTimestamp ≠ b.getTimestamp) (rendered s.trace) ∧
    ∀ x ∈ (rendered s.trace).getLast?, x.getTimestamp = s.timestamp

/-- Whether `isHelpRequested` (line 91) is reached and true. -/
def helpRequested : CommandLine → Bool
  | CommandLine.stored help _ => decide (help > 0)
  | _ => false

/-- The address option that reaches line 105, if any. -/
def CommandLine.address : CommandLine → Option String
  | CommandLine.stored _ address => address
  | _ => none

/-- The digits of one field of a dotted address, as a number. -/
def fieldValue (field : List Char) : Option Nat :=
  if field ≠ [] ∧ field.length ≤ 3 ∧ field.all (fun ch => decide (48 ≤ ch.toNat ∧ ch.toNat ≤ 57)) then
    some (field.foldl (fun n ch => 10 * n + (ch.toNat - 48)) 0)
  else
    none

/-- The fields of a dotted address. -/
def splitDots : List Char → List (List Char)
  | [] => [[]]
  | ch :: rest =>
    if ch = '.' then [] :: splitDots rest
    else
      match splitDots rest with
      | [] => [[ch]]
      | field :: fields => (ch :: field) :: fields

/-- A sample `from_string`, for concrete runs: it accepts the dotted decimal
form `a.b.c.d` with four fields of one to three digits, each at most 255, as
a v4 address, and sets the error code on everything else. -/
def dottedQuad (address : String) : AddressParse :=
  let fields := (splitDots address.toList).map fieldValue
  let ok := decide (fields.length = 4) &&
    fields.all (fun field => match field with
      | some n => decide (n ≤ 255)
      | none => false)
  { errorCode := !ok, is_v4 := ok }

/-- Sample answers of the collaborators, for concrete runs: the sample
`from_string`, a command line that stores `help` and `address`, a
configuration request and a build that answer as given, and the clock
reading `5`. -/
def sampleCollaborators (help : Nat) (address : Option String)
    (configureFuture : Option RequestResult) (build : RequestResult × Option DataLink) :
    Collaborators :=
  { from_string := dottedQuad
    commandLine := CommandLine.stored help address
    configureFuture := configureFuture
    buildResult := build
    now := 5 }

/-- The start-up failures: parsing reports an unknown option or an invalid
command line, the address is missing, empty or not a valid IPv4 literal, the
configuration request is absent or resolves to something other than
`SUCCESS`, or the data-link build resolves to something other than
`SUCCESS`. -/
def startupFails (c : Collaborators) : Prop :=
  (∃ name, c.commandLine = CommandLine.unknown_option name) ∨
  (∃ name what, c.commandLine = CommandLine.invalid_command_line name what) ∨
  c.commandLine.address = none ∨
  c.commandLine.address = some "" ∨
  (∃ address, c.commandLine.address = some address ∧
    isValidIpv4 c.from_string address = false) ∨
  c.configureFuture = none ∨
  (∃ result, c.configureFuture = some result ∧ result ≠ RequestResult.SUCCESS) ∨
  c.buildResult.1 ≠ RequestResult.SUCCESS

/-! ## The schedule runner -/

theorem run_nil (s : State) : run [] s = s := rfl

theorem run_cons (a : Action) (schedule : List Action) (s : State) :
    run (a :: schedule) s = run schedule (step a s) := rfl

theorem run_append (p q : List Action) (s : State) :
    run (p ++ q) s = run q (run p s) := by
  simp [run, List.foldl_append]

/-! ## The start-up phase -/

theorem startup_case (c : Collaborators) : StartupCase c (startup c) := by
  cases hcl : c.commandLine with
  | unknown_option name =>
    have h := StartupCase.unknownOption name hcl
    simpa [startup, hcl] using h
  | invalid_command_line name what =>
    have h := StartupCase.invalidCommandLine name what hcl
    simpa [startup, hcl] using h
  | other_error =>
    have h := StartupCase.otherError hcl
    simpa [startup, hcl] using h
  | stored help address =>
    by_cases hhelp : help > 0
    · have h := StartupCase.helpRequested help address hcl hhelp
      simpa [startup, hcl, hhelp] using h
    · have h0 : help = 0 := by omega
      subst h0
      cases address with
      | none =>
        have h := StartupCase.missingAddress hcl
        simpa [startup, hcl] using h
      | some a =>
        by_cases hne : a = ""
        · subst hne
          have h := StartupCase.emptyAddress hcl
          simpa [startup, hcl] using h
        · cases hv4 : isValidIpv4 c.from_string a with
          | false =>
            have h := StartupCase.invalidAddress a hcl hne hv4
            simpa [startup, hcl, hne, hv4] using h
          | true =>
            cases hcfg : c.configureFuture with
            | none =>
              have h := StartupCase.busy a hcl hne hv4 hcfg
              simpa [startup, hcl, hne, hv4, hcfg] using h
            | some result =>
              by_cases hres : result = RequestResult.SUCCESS
              · subst hres
                by_cases hb1 : c.buildResult.1 = RequestResult.SUCCESS
                · cases hb2 : c.buildResult.2 with
                  | none =>
                    have h := StartupCase.emptyHandle a hcl hne hv4 hcfg hb1 hb2
                    simpa [startup, hcl, hne, hv4, hcfg, hb1, hb2] using h
                  | some link =>
                    have h := StartupCase.entersLoop a link hcl hne hv4 hcfg hb1 hb2
                    simpa [startup, hcl, hne, hv4, hcfg, hb1, hb2, entryTrace] using h
                · have h := StartupCase.buildFailed a hcl hne hv4 hcfg hb1
                  simpa [startup, hcl, hne, hv4, hcfg, hb1] using h
              · have h := StartupCase.configureFailed a result hcl hne hv4 hcfg hres
                simpa [startup, hcl, hne, hv4, hcfg, hres] using h

theorem startup_loop (c : Collaborators) (trace : List Event)
    (h : startup c = Startup.loop trace) :
    ∃ address link, c.commandLine = CommandLine.stored 0 (some address) ∧ address ≠ "" ∧
      isValidIpv4 c.from_string address = true ∧
      c.configureFuture = some RequestResult.SUCCESS ∧
      c.buildResult.1 = RequestResult.SUCCESS ∧ c.buildResult.2 = some link ∧
      trace = entryTrace address := by
  have hc := startup_case c
  rw [h] at hc
  cases hc with
  | entersLoop address link hcl hne hv4 hcfg hb1 hb2 =>
    exact ⟨address, link, hcl, hne, hv4, hcfg, hb1, hb2, rfl⟩

/-! ## What the loop renders -/

theorem rendered_append (p q : List Event) : rendered (p ++ q) = rendered p ++ rendered q := by
  induction p with
  | nil => rfl
  | cons e p ih => cases e <;> simp [rendered, ih]

theorem rendered_entryTrace (address : String) : rendered (entryTrace address) = [] := rfl

theorem renderInv_mainStep (wasStopped : Bool) (s : State) (h : RenderInv s) :
    RenderInv (mainStep wasStopped s) := by
  obtain ⟨hchain, hlast⟩ := h
  unfold mainStep
  split
  · split <;> exact ⟨hchain, hlast⟩
  · exact ⟨by simpa [rendered_append, rendered] using hchain,
      by simpa [rendered_append, rendered] using hlast⟩
  · split
    · exact ⟨by simpa [rendered_append, rendered] using hchain,
        by simpa [rendered_append, rendered] using hlast⟩
    · rename_i scan _
      split
      · exact ⟨by simpa [rendered_append, rendered] using hchain,
          by simpa [rendered_append, rendered] using hlast⟩
      · rename_i hne
        refine ⟨?_, ?_⟩
        · simp only [rendered_append, rendered, List.append_nil]
          rw [List.chain'_append]
          refine ⟨hchain, List.chain'_singleton _, ?_⟩
          intro x hx y hy
          simp at hy
          subst hy
          rw [hlast x hx]
          exact fun e => hne e.symm
        · simp [rendered_append, rendered]
  · exact ⟨by simpa [rendered_append, rendered] using hchain,
      by simpa [rendered_append, rendered] using hlast⟩
  · exact ⟨hchain, hlast⟩

theorem renderInv_step (a : Action) (s : State) (h : RenderInv s) : RenderInv (step a s) := by
  cases a with
  | interrupt => exact h
  | connectionLost => exact h
  | newScan scan => exact h
  | main wasStopped => exact renderInv_mainStep wasStopped s h

theorem renderInv_run (schedule : List Action) (s : State) (h : RenderInv s) :
    RenderInv (run schedule s) := by
  induction schedule generalizing s with
  | nil => exact h
  | cons a schedule ih => exact ih (step a s) (renderInv_step a s h)

theorem rendered_startup_exit (c : Collaborators) (status : Status) (trace : List Event)
    (h : startup c = Startup.exit status trace) : rendered trace = [] := by
  have hc := startup_case c
  rw [h] at hc
  cases hc <;> rfl

/-- C2. Whatever the collaborators answer and whatever the schedule of
callbacks, signals and main-thread statements, no two consecutive scans that
`main` hands to the viewer have the same timestamp. -/
theorem rendered_timestamps_differ (c : Collaborators) (schedule : List Action) :
    List.Chain' (fun a b : Scan => a.getTimestamp ≠ b.getTimestamp)
      (rendered (main c schedule).trace) := by
  unfold main
  split
  · rename_i status trace h
    simp [rendered_startup_exit c status trace h]
  · rename_i trace h
    obtain ⟨address, _, _, _, _, _, _, _, htrace⟩ := startup_loop c trace h
    refine (renderInv_run schedule (loopEntry c.now trace) ?_).1
    subst htrace
    exact ⟨by simp [loopEntry, rendered_entryTrace], by simp [loopEntry, rendered_entryTrace]⟩

/-! ## The loop under a stop flag -/

theorem spins_append (p q : List Event) : spins (p ++ q) = spins p + spins q := by
  induction p with
  | nil => simp [spins]
  | cons e p ih =>
    cases e <;> simp [spins, ih]
    omega

theorem loads_append (p q : List Event) : loads (p ++ q) = loads p ++ loads q := by
  induction p with
  | nil => rfl
  | cons e p ih => cases e <;> simp [loads, ih]

theorem mainSteps_append (p q : List Action) :
    mainSteps (p ++ q) = mainSteps p + mainSteps q := by
  induction p with
  | nil => simp [mainSteps]
  | cons a p ih =>
    cases a <;> simp [mainSteps, ih]
    omega

/-- The handlers leave the control of the main thread alone and only raise
the flags. -/
theorem run_handlers (schedule : List Action) (s : State) (h : mainSteps schedule = 0) :
    (run schedule s).pc = s.pc ∧ (run schedule s).trace = s.trace ∧
      (run schedule s).timestamp = s.timestamp ∧
      (stopFlag s = true → stopFlag (run schedule s) = true) := by
  induction schedule generalizing s with
  | nil => exact ⟨rfl, rfl, rfl, id⟩
  | cons a schedule ih =>
    cases a with
    | interrupt =>
      obtain ⟨h1, h2, h3, h4⟩ := ih (step Action.interrupt s) (by simpa [mainSteps] using h)
      exact ⟨h1, h2, h3, fun _ => h4 (by simp [stopFlag, step])⟩
    | connectionLost =>
      obtain ⟨h1, h2, h3, h4⟩ := ih (step Action.connectionLost s) (by simpa [mainSteps] using h)
      exact ⟨h1, h2, h3, fun _ => h4 (by simp [stopFlag, step])⟩
    | newScan scan =>
      obtain ⟨h1, h2, h3, h4⟩ := ih (step (Action.newScan scan) s) (by simpa [mainSteps] using h)
      exact ⟨h1, h2, h3, fun hf => h4 (by simpa [stopFlag, step] using hf)⟩
    | main wasStopped => simp [mainSteps] at h

/-- A schedule with a statement of the main thread splits at the first one. -/
theorem split_first_main (schedule : List Action) (h : 1 ≤ mainSteps schedule) :
    ∃ handlers wasStopped rest, schedule = handlers ++ Action.main wasStopped :: rest ∧
      mainSteps handlers = 0 ∧ mainSteps schedule = mainSteps rest + 1 := by
  induction schedule with
  | nil => simp [mainSteps] at h
  | cons a schedule ih =>
    cases a with
    | main wasStopped => exact ⟨[], wasStopped, schedule, rfl, rfl, rfl⟩
    | interrupt =>
      obtain ⟨hs, w, rest, h1, h2, h3⟩ := ih (by simpa [mainSteps] using h)
      exact ⟨Action.interrupt :: hs, w, rest, by rw [h1]; rfl, by simpa [mainSteps] using h2,
        by simpa [mainSteps] using h3⟩
    | connectionLost =>
      obtain ⟨hs, w, rest, h1, h2, h3⟩ := ih (by simpa [mainSteps] using h)
      exact ⟨Action.connectionLost :: hs, w, rest, by rw [h1]; rfl,
        by simpa [mainSteps] using h2, by simpa [mainSteps] using h3⟩
    | newScan scan =>
      obtain ⟨hs, w, rest, h1, h2, h3⟩ := ih (by simpa [mainSteps] using h)
      exact ⟨Action.newScan scan :: hs, w, rest, by rw [h1]; rfl,
        by simpa [mainSteps] using h2, by simpa [mainSteps] using h3⟩

theorem stopFlag_step (a : Action) (s : State) (h : stopFlag s = true) :
    stopFlag (step a s) = true := by
  cases a with
  | interrupt => simp [stopFlag, step]
  | connectionLost => simp [stopFlag, step]
  | newScan scan => simpa [stopFlag, step] using h
  | main wasStopped =>
    simp only [step, mainStep]
    split
    · split <;> simpa [stopFlag] using h
    · simpa [stopFlag] using h
    · split
      · simpa [stopFlag] using h
      · split <;> simpa [stopFlag] using h
    · simpa [stopFlag] using h
    · exact h

theorem stopFlag_run (schedule : List Action) (s : State) (h : stopFlag s = true) :
    stopFlag (run schedule s) = true := by
  induction schedule generalizing s with
  | nil => exact h
  | cons a schedule ih => exact ih (step a s) (stopFlag_step a s h)

theorem run_exited (schedule : List Action) (s : State) (h : s.pc = Pc.exited) :
    (run schedule s).pc = Pc.exited ∧ (run schedule s).trace = s.trace := by
  induction schedule generalizing s with
  | nil => exact ⟨h, rfl⟩
  | cons a schedule ih =>
    cases a with
    | interrupt => exact ih (step Action.interrupt s) h
    | connectionLost => exact ih (step Action.connectionLost s) h
    | newScan scan => exact ih (step (Action.newScan scan) s) h
    | main wasStopped =>
      have : step (Action.main wasStopped) s = s := by simp [step, mainStep, h]
      rw [run_cons, this]
      exact ih s h

theorem run_close (schedule : List Action) (s : State) (h : s.pc = Pc.close)
    (hsteps : 1 ≤ mainSteps schedule) :
    (run schedule s).pc = Pc.exited ∧
      (run schedule s).trace = s.trace ++ [Event.viewerClose] := by
  obtain ⟨hs, w, rest, rfl, h0, _⟩ := split_first_main schedule hsteps
  obtain ⟨hpc, htr, _, _⟩ := run_handlers hs s h0
  rw [run_append, run_cons]
  have hpc2 : (step (Action.main w) (run hs s)).pc = Pc.exited := by
    simp [step, mainStep, hpc, h]
  have htr2 : (step (Action.main w) (run hs s)).trace = s.trace ++ [Event.viewerClose] := by
    simp [step, mainStep, hpc, h, htr]
  obtain ⟨h1, h2⟩ := run_exited rest _ hpc2
  exact ⟨h1, by rw [h2, htr2]⟩

theorem run_condition_stop (schedule : List Action) (s : State) (h : s.pc = Pc.condition)
    (hstop : stopFlag s = true ∨ ∀ w, Action.main w ∈ schedule → w = true)
    (hsteps : 2 ≤ mainSteps schedule) :
    (run schedule s).pc = Pc.exited ∧
      (run schedule s).trace = s.trace ++ [Event.viewerClose] := by
  obtain ⟨hs, w, rest, rfl, h0, hn⟩ := split_first_main schedule (by omega)
  obtain ⟨hpc, htr, _, hfl⟩ := run_handlers hs s h0
  rw [run_append, run_cons]
  have hcond : (!w && !(run hs s).interruptProgram && !(run hs s).deviceHasDisconnected)
      = false := by
    rcases hstop with hflag | hview
    · have hfl2 := hfl hflag
      simp only [stopFlag, Bool.or_eq_true] at hfl2
      rcases hfl2 with h1 | h1 <;> simp [h1]
    · have hw : w = true := hview w (by simp)
      simp [hw]
  have hpc2 : (step (Action.main w) (run hs s)).pc = Pc.close := by
    simp [step, mainStep, hpc, h, hcond]
  have htr2 : (step (Action.main w) (run hs s)).trace = s.trace := by
    simp [step, mainStep, hpc, h, hcond, htr]
  obtain ⟨h1, h2⟩ := run_close rest _ hpc2 (by omega)
  exact ⟨h1, by rw [h2, htr2]⟩

/-- A stop cause outlives a handler prefix and one statement of the main
thread. -/
theorem stop_cause_rest (hs rest : List Action) (w : Bool) (s : State)
    (h0 : mainSteps hs = 0)
    (hstop : stopFlag s = true ∨ ∀ v, Action.main v ∈ hs ++ Action.main w :: rest → v = true) :
    stopFlag (step (Action.main w) (run hs s)) = true ∨
      ∀ v, Action.main v ∈ rest → v = true := by
  rcases hstop with hflag | hview
  · exact Or.inl (stopFlag_step _ _ ((run_handlers hs s h0).2.2.2 hflag))
  · exact Or.inr (fun v hv => hview v (by simp [hv]))

/-- What the load statement appends: the load alone, or the load and the
rendering of the scan it returned. -/
theorem mainStep_load (wasStopped : Bool) (s : State) (h : s.pc = Pc.load) :
    (mainStep wasStopped s).pc = Pc.condition ∧
      ∃ body, (mainStep wasStopped s).trace = s.trace ++ body ∧ spins body = 0 ∧
        (loads body).length = 1 := by
  unfold mainStep
  rw [h]
  simp only
  split
  · exact ⟨rfl, _, rfl, rfl, rfl⟩
  · split
    · exact ⟨rfl, _, rfl, rfl, rfl⟩
    · exact ⟨rfl, _, rfl, rfl, rfl⟩

theorem run_load_stop (schedule : List Action) (s : State) (h : s.pc = Pc.load)
    (hstop : stopFlag s = true ∨ ∀ w, Action.main w ∈ schedule → w = true)
    (hsteps : 3 ≤ mainSteps schedule) :
    (run schedule s).pc = Pc.exited ∧
      ∃ body, (run schedule s).trace = s.trace ++ body ++ [Event.viewerClose] ∧
        spins body = 0 ∧ (loads body).length = 1 := by
  obtain ⟨hs, w, rest, rfl, h0, hn⟩ := split_first_main schedule (by omega)
  obtain ⟨hpc, htr, _, hfl⟩ := run_handlers hs s h0
  rw [run_append, run_cons]
  obtain ⟨hpc2, body, htr2, hb1, hb2⟩ := mainStep_load w (run hs s) (by rw [hpc, h])
  obtain ⟨h1, h2⟩ := run_condition_stop rest (step (Action.main w) (run hs s)) hpc2
    (stop_cause_rest hs rest w s h0 hstop) (by omega)
  refine ⟨h1, body, ?_, hb1, hb2⟩
  rw [h2]
  show (mainStep w (run hs s)).trace ++ _ = _
  rw [htr2, htr]

theorem run_spinOnce_stop (schedule : List Action) (s : State) (h : s.pc = Pc.spinOnce)
    (hstop : stopFlag s = true ∨ ∀ w, Action.main w ∈ schedule → w = true)
    (hsteps : 4 ≤ mainSteps schedule) :
    (run schedule s).pc = Pc.exited ∧
      ∃ body, (run schedule s).trace = s.trace ++ body ++ [Event.viewerClose] ∧
        spins body = 1 ∧ (loads body).length = 1 := by
  obtain ⟨hs, w, rest, rfl, h0, hn⟩ := split_first_main schedule (by omega)
  obtain ⟨hpc, htr, _, hfl⟩ := run_handlers hs s h0
  rw [run_append, run_cons]
  have hpc2 : (step (Action.main w) (run hs s)).pc = Pc.load := by
    simp [step, mainStep, hpc, h]
  have htr2 : (step (Action.main w) (run hs s)).trace = s.trace ++ [Event.spinOnce] := by
    simp [step, mainStep, hpc, h, htr]
  obtain ⟨h1, body, h2, hb1, hb2⟩ := run_load_stop rest (step (Action.main w) (run hs s)) hpc2
    (stop_cause_rest hs rest w s h0 hstop) (by omega)
  refine ⟨h1, Event.spinOnce :: body, ?_, by simp [spins, hb1], by simpa [loads] using hb2⟩
  rw [h2, htr2]
  simp

/-- Under a stop cause the loop leaves within four statements of the main
thread, having finished at most the cycle in progress. -/
theorem run_stop (schedule : List Action) (s : State) (hlive : s.pc ≠ Pc.exited)
    (hstop : stopFlag s = true ∨ ∀ w, Action.main w ∈ schedule → w = true)
    (hsteps : 4 ≤ mainSteps schedule) :
    (run schedule s).pc = Pc.exited ∧
      ∃ cycle, (run schedule s).trace = s.trace ++ cycle ++ [Event.viewerClose] ∧
        spins cycle = (if s.pc = Pc.spinOnce then 1 else 0) ∧
        (loads cycle).length = (if s.pc = Pc.spinOnce ∨ s.pc = Pc.load then 1 else 0) := by
  cases hpc : s.pc with
  | condition =>
    obtain ⟨h1, h2⟩ := run_condition_stop schedule s hpc hstop (by omega)
    exact ⟨h1, [], by simpa using h2, by simp [spins], by simp [loads]⟩
  | spinOnce =>
    obtain ⟨h1, body, h2, h3, h4⟩ := run_spinOnce_stop schedule s hpc hstop hsteps
    exact ⟨h1, body, h2, by simpa using h3, by simpa using h4⟩
  | load =>
    obtain ⟨h1, body, h2, h3, h4⟩ := run_load_stop schedule s hpc hstop (by omega)
    exact ⟨h1, body, h2, by simpa using h3, by simpa using h4⟩
  | close =>
    obtain ⟨h1, h2⟩ := run_close schedule s hpc (by omega)
    exact ⟨h1, [], by simpa using h2, by simp [spins], by simp [loads]⟩
  | exited => exact absurd hpc hlive

/-- One statement of the main thread only appends to the trace. -/
theorem mainStep_trace (wasStopped : Bool) (s : State) :
    ∃ add, (mainStep wasStopped s).trace = s.trace ++ add := by
  unfold mainStep
  split
  · split <;> exact ⟨[], by simp⟩
  · exact ⟨_, rfl⟩
  · split
    · exact ⟨_, rfl⟩
    · split <;> exact ⟨_, rfl⟩
  · exact ⟨_, rfl⟩
  · exact ⟨[], by simp⟩

/-- The trace only grows. -/
theorem trace_grows (schedule : List Action) (s : State) :
    ∃ new, (run schedule s).trace = s.trace ++ new := by
  induction schedule generalizing s with
  | nil => exact ⟨[], by simp [run_nil]⟩
  | cons a schedule ih =>
    obtain ⟨new, hnew⟩ := ih (step a s)
    rw [run_cons, hnew]
    cases a with
    | interrupt => exact ⟨new, rfl⟩
    | connectionLost => exact ⟨new, rfl⟩
    | newScan scan => exact ⟨new, rfl⟩
    | main wasStopped =>
      obtain ⟨add, hadd⟩ := mainStep_trace wasStopped s
      exact ⟨add ++ new, by simp [step, hadd]⟩

/-- C3. From every state of the loop in which `interruptProgram` or
`deviceHasDisconnected` is set: the flag stays set; whatever the schedule,
the main thread pumps and loads at most once more, and only when that cycle
was already past its condition; and after four of its statements it has left
the loop, closed the viewer as its last call and returned `EXIT_SUCCESS`,
after which nothing is called any more. -/
theorem stop_flag_ends_loop (s : State) (schedule : List Action)
    (hflag : s.interruptProgram = true ∨ s.deviceHasDisconnected = true)
    (hlive : s.pc ≠ Pc.exited) :
    ((run schedule s).interruptProgram = true ∨
      (run schedule s).deviceHasDisconnected = true) ∧
    (∃ new, (run schedule s).trace = s.trace ++ new ∧
      spins new ≤ (if s.pc = Pc.spinOnce then 1 else 0) ∧
      (loads new).length ≤ (if s.pc = Pc.spinOnce ∨ s.pc = Pc.load then 1 else 0)) ∧
    (4 ≤ mainSteps schedule →
      exitStatus (run schedule s) = Status.returned EXIT_SUCCESS ∧
      (∃ cycle, (run schedule s).trace = s.trace ++ cycle ++ [Event.viewerClose] ∧
        spins cycle = (if s.pc = Pc.spinOnce then 1 else 0) ∧
        (loads cycle).length = (if s.pc = Pc.spinOnce ∨ s.pc = Pc.load then 1 else 0)) ∧
      ∀ more, (run (schedule ++ more) s).trace = (run schedule s).trace ∧
        exitStatus (run (schedule ++ more) s) = Status.returned EXIT_SUCCESS) := by
  have hsf : stopFlag s = true := by simpa [stopFlag] using hflag
  refine ⟨by simpa [stopFlag] using stopFlag_run schedule s hsf, ?_, ?_⟩
  · obtain ⟨new, hnew⟩ := trace_grows schedule s
    let four := [Action.main false, Action.main false, Action.main false, Action.main false]
    obtain ⟨more, hmore⟩ := trace_grows four (run schedule s)
    obtain ⟨_, cycle, hc, hs1, hs2⟩ := run_stop (schedule ++ four) s hlive (Or.inl hsf)
      (by rw [mainSteps_append]; simp [four, mainSteps])
    rw [run_append, hmore, hnew, List.append_assoc, List.append_assoc] at hc
    have heq := List.append_cancel_left hc
    refine ⟨new, hnew, ?_, ?_⟩
    · have h := congrArg spins heq
      rw [spins_append, spins_append] at h
      simp only [spins] at h
      omega
    · have h := congrArg (fun l => (loads l).length) heq
      simp only [loads_append, List.length_append, loads, List.length_nil] at h
      omega
  · intro hsteps
    obtain ⟨hpc, hcycle⟩ := run_stop schedule s hlive (Or.inl hsf) hsteps
    refine ⟨by simp [exitStatus, hpc], hcycle, ?_⟩
    intro more
    obtain ⟨h1, h2⟩ := run_exited more (run schedule s) hpc
    rw [run_append]
    exact ⟨h2, by simp [exitStatus, h1]⟩

/-- C3, at a concrete state: the loop is about to pump when a signal has set
`interruptProgram`; a new scan arrives, and the main thread runs on. -/
theorem stop_flag_ends_loop_witness :
    (((State.mk Pc.spinOnce true false none 5 []).interruptProgram = true ∨
      (State.mk Pc.spinOnce true false none 5 []).deviceHasDisconnected = true) ∧
      (State.mk Pc.spinOnce true false none 5 []).pc ≠ Pc.exited) ∧
    exitStatus (run [Action.main false, Action.newScan (some ⟨6, [1]⟩), Action.main false,
        Action.main false, Action.main false, Action.main false]
      (State.mk Pc.spinOnce true false none 5 [])) = Status.returned EXIT_SUCCESS :=
  ⟨⟨by decide, by decide⟩,
    ((stop_flag_ends_loop (State.mk Pc.spinOnce true false none 5 [])
      [Action.main false, Action.newScan (some ⟨6, [1]⟩), Action.main false,
        Action.main false, Action.main false, Action.main false]
      (by decide) (by decide)).2.2 (by decide)).1⟩

/-! ## Exit status and calls of `main` -/

theorem main_of_exit (c : Collaborators) (schedule : List Action) (status : Status)
    (trace : List Event) (h : startup c = Startup.exit status trace) :
    main c schedule = { status := status, trace := trace } := by
  simp [main, h]

theorem main_of_loop (c : Collaborators) (schedule : List Action) (trace : List Event)
    (h : startup c = Startup.loop trace) :
    main c schedule = { status := exitStatus (run schedule (loopEntry c.now trace)),
                        trace := (run schedule (loopEntry c.now trace)).trace } := by
  simp [main, h]

theorem stopFlag_of_mem (schedule : List Action) (s : State)
    (h : Action.interrupt ∈ schedule ∨ Action.connectionLost ∈ schedule) :
    stopFlag (run schedule s) = true := by
  induction schedule generalizing s with
  | nil => simp at h
  | cons a schedule ih =>
    rw [run_cons]
    by_cases ha : a = Action.interrupt ∨ a = Action.connectionLost
    · apply stopFlag_run
      rcases ha with rfl | rfl <;> simp [stopFlag, step]
    · apply ih
      rcases h with h | h
      · rcases List.mem_cons.1 h with h | h
        · exact absurd (Or.inl h.symm) ha
        · exact Or.inl h
      · rcases List.mem_cons.1 h with h | h
        · exact absurd (Or.inr h.symm) ha
        · exact Or.inr h

/-- C4. With help not requested and parsing ending in an outcome that `main`
handles: `main` returns `EXIT_FAILURE`, which is not zero, whenever parsing
reports an unknown option or an invalid command line, the address is
missing, empty or not a valid IPv4 literal, the configuration request is
absent or not `SUCCESS`, or the data-link build is not `SUCCESS`; and when
none of these holds, the build delivered its handle, and the schedule brings
a stop cause (the handler `interrupt` or the connection-lost callback has
run, or the viewer answers stopped from then on) followed by four statements
of the main thread, `main` returns `EXIT_SUCCESS`, which is zero. -/
theorem main_exit_status (c : Collaborators) (before after : List Action)
    (hhelp : helpRequested c.commandLine = false)
    (hparse : c.commandLine ≠ CommandLine.other_error) :
    (startupFails c →
      (main c (before ++ after)).status = Status.returned EXIT_FAILURE ∧ EXIT_FAILURE ≠ 0) ∧
    (¬ startupFails c → c.buildResult.2 ≠ none →
      (Action.interrupt ∈ before ∨ Action.connectionLost ∈ before ∨
        ∀ w, Action.main w ∈ after → w = true) →
      4 ≤ mainSteps after →
      (main c (before ++ after)).status = Status.returned EXIT_SUCCESS ∧ EXIT_SUCCESS = 0) := by
  have hc := startup_case c
  generalize hst : startup c = r at hc
  refine ⟨fun hfail => ⟨?_, by decide⟩, fun hpass hhandle hstop hsteps => ⟨?_, rfl⟩⟩
  · cases hc <;>
      simp_all [main, startupFails, helpRequested, CommandLine.address]
  · cases hc with
    | entersLoop address link hcl hne hv4 hcfg hb1 hb2 =>
      rw [main_of_loop c _ _ hst, run_append]
      simp only [exitStatus]
      by_cases hpc : (run before (loopEntry c.now (entryTrace address))).pc = Pc.exited
      · rw [(run_exited after _ hpc).1]
        rfl
      · have hcause : stopFlag (run before (loopEntry c.now (entryTrace address))) = true ∨
            ∀ w, Action.main w ∈ after → w = true := by
          rcases hstop with h | h | h
          · exact Or.inl (stopFlag_of_mem before _ (Or.inl h))
          · exact Or.inl (stopFlag_of_mem before _ (Or.inr h))
          · exact Or.inr h
        rw [(run_stop after _ hpc hcause hsteps).1]
        rfl
    | emptyHandle address hcl hne hv4 hcfg hb1 hb2 => exact absurd hb2 hhandle
    | _ => exact absurd (by simp_all [startupFails, helpRequested, CommandLine.address]) hpass

/-- C4, at concrete runs: the address `999.1.1.1` gives `EXIT_FAILURE`; the
address `10.0.0.5` with a configured device, a built data link and a signal
during the second cycle gives `EXIT_SUCCESS`. -/
theorem main_exit_status_witness :
    (helpRequested (sampleCollaborators 0 (some "999.1.1.1") (some RequestResult.SUCCESS)
        (RequestResult.SUCCESS, some ⟨1⟩)).commandLine = false ∧
      (main (sampleCollaborators 0 (some "999.1.1.1") (some RequestResult.SUCCESS)
        (RequestResult.SUCCESS, some ⟨1⟩)) ([] ++ [])).status = Status.returned EXIT_FAILURE) ∧
    (helpRequested (sampleCollaborators 0 (some "10.0.0.5") (some RequestResult.SUCCESS)
        (RequestResult.SUCCESS, some ⟨1⟩)).commandLine = false ∧
      (main (sampleCollaborators 0 (some "10.0.0.5") (some RequestResult.SUCCESS)
        (RequestResult.SUCCESS, some ⟨1⟩))
        ([Action.main false, Action.main false, Action.newScan (some ⟨6, [1]⟩),
            Action.main false, Action.main false, Action.interrupt] ++
          [Action.main false, Action.main false, Action.main false,
            Action.main false])).status = Status.returned EXIT_SUCCESS) :=
  ⟨⟨rfl, ((main_exit_status
      (sampleCollaborators 0 (some "999.1.1.1") (some RequestResult.SUCCESS)
        (RequestResult.SUCCESS, some ⟨1⟩)) [] [] rfl (by simp [sampleCollaborators])).1
      (Or.inr (Or.inr (Or.inr (Or.inr (Or.inl ⟨"999.1.1.1", rfl, by decide⟩)))))).1⟩,
    ⟨rfl, ((main_exit_status
      (sampleCollaborators 0 (some "10.0.0.5") (some RequestResult.SUCCESS)
        (RequestResult.SUCCESS, some ⟨1⟩))
      [Action.main false, Action.main false, Action.newScan (some ⟨6, [1]⟩),
        Action.main false, Action.main false, Action.interrupt]
      [Action.main false, Action.main false, Action.main false, Action.main false]
      rfl (by simp [sampleCollaborators])).2
      (by
        have hv : isValidIpv4 dottedQuad "10.0.0.5" = true := by decide
        have hne : ("10.0.0.5" : String) ≠ "" := by decide
        simp [startupFails, sampleCollaborators, CommandLine.address, hv])
      (by simp [sampleCollaborators]) (Or.inl (by simp)) (by decide)).1⟩⟩

/-- C6. When the command line parses without error and carries the help
flag, whatever the address option, `main` installs its signal handlers,
parses, prints the usage and returns `EXIT_SUCCESS`, which is zero: it makes
no call that validates the address, touches the device or belongs to the
loop. -/
theorem help_prints_usage_and_returns (c : Collaborators) (schedule : List Action)
    (help : Nat) (address : Option String)
    (hcl : c.commandLine = CommandLine.stored help address) (hhelp : 0 < help) :
    (main c schedule).status = Status.returned EXIT_SUCCESS ∧ EXIT_SUCCESS = 0 ∧
    (main c schedule).trace = installSignals ++ [Event.parse, Event.cout Message.usage] ∧
    ∀ e ∈ (main c schedule).trace,
      e.isAddressValidation = false ∧ e.isDeviceInteraction = false ∧
        e.isLoopCall = false := by
  have hc := startup_case c
  generalize hst : startup c = r at hc
  have h0 : help ≠ 0 := by omega
  cases hc <;>
    simp_all [main, installSignals, Event.isDeviceInteraction, Event.isLoopCall,
      Event.isAddressValidation, EXIT_SUCCESS]

/-- C6, at a command line with the help flag and no address. -/
theorem help_prints_usage_and_returns_witness :
    (0 < 1) ∧
    (main (sampleCollaborators 1 none (some RequestResult.SUCCESS)
      (RequestResult.SUCCESS, some ⟨1⟩)) [Action.main false]).status =
        Status.returned EXIT_SUCCESS :=
  ⟨by decide, (help_prints_usage_and_returns
    (sampleCollaborators 1 none (some RequestResult.SUCCESS)
      (RequestResult.SUCCESS, some ⟨1⟩)) [Action.main false] 1 none rfl (by decide)).1⟩

/-- C7. Once the command line has passed (no help flag, a non-empty valid
address): when the configuration request is absent, `main` returns
`EXIT_FAILURE` with the busy diagnostic as its last call and never waits on
or reads a pending request; when the configuration request is absent or not
`SUCCESS`, `main` returns `EXIT_FAILURE` and attempts no build; when the
build is not `SUCCESS`, `main` returns `EXIT_FAILURE` without reading the
handle, registering a callback, creating the viewer or entering the loop. -/
theorem startup_failure_stops_early (c : Collaborators) (schedule : List Action)
    (address : String)
    (hcl : c.commandLine = CommandLine.stored 0 (some address)) (hne : address ≠ "")
    (hv4 : isValidIpv4 c.from_string address = true) :
    (c.configureFuture = none →
      (main c schedule).status = Status.returned EXIT_FAILURE ∧
      (main c schedule).trace.getLast? = some (Event.clog Message.couldNotConfigureBusy) ∧
      ∀ e ∈ (main c schedule).trace, e ≠ Event.configureWait ∧ e ≠ Event.configureGet) ∧
    (c.configureFuture ≠ some RequestResult.SUCCESS →
      (main c schedule).status = Status.returned EXIT_FAILURE ∧
      ∀ e ∈ (main c schedule).trace,
        e ≠ Event.build ∧ e ≠ Event.buildWait ∧ e ≠ Event.buildGet) ∧
    (c.buildResult.1 ≠ RequestResult.SUCCESS →
      (main c schedule).status = Status.returned EXIT_FAILURE ∧
      ∀ e ∈ (main c schedule).trace,
        e ≠ Event.handleAccess ∧ e ≠ Event.addOnDataLinkConnectionLostCallback ∧
          e ≠ Event.addOnNewScanAvailableCallback ∧ e.isLoopCall = false) := by
  have hc := startup_case c
  generalize hst : startup c = r at hc
  refine ⟨fun h => ?_, fun h => ?_, fun h => ?_⟩ <;> cases hc <;>
    simp_all [main, installSignals, Event.isLoopCall]

/-- C7, at a busy device: the configuration request is absent. -/
theorem startup_failure_stops_early_witness :
    (("10.0.0.5" : String) ≠ "" ∧ isValidIpv4 dottedQuad "10.0.0.5" = true) ∧
    (main (sampleCollaborators 0 (some "10.0.0.5") none
      (RequestResult.FAILURE 3, none)) [Action.main false]).status =
        Status.returned EXIT_FAILURE :=
  ⟨⟨by decide, by decide⟩, ((startup_failure_stops_early
    (sampleCollaborators 0 (some "10.0.0.5") none (RequestResult.FAILURE 3, none))
    [Action.main false] "10.0.0.5" rfl (by decide) (by decide)).1 rfl).1⟩

/-! ## The dedup test and the place of the stop check -/

theorem timestamp_mainStep (now : Nat) (wasStopped : Bool) (s : State)
    (h : s.timestamp = lastTimestamp now s.trace) :
    (mainStep wasStopped s).timestamp = lastTimestamp now (mainStep wasStopped s).trace := by
  unfold mainStep
  split
  · split <;> exact h
  · simpa [lastTimestamp, rendered_append, rendered] using h
  · split
    · simpa [lastTimestamp, rendered_append, rendered] using h
    · split
      · simpa [lastTimestamp, rendered_append, rendered] using h
      · simp [lastTimestamp, rendered_append, rendered]
  · simpa [lastTimestamp, rendered_append, rendered] using h
  · exact h

theorem timestamp_run (now : Nat) (schedule : List Action) (s : State)
    (h : s.timestamp = lastTimestamp now s.trace) :
    (run schedule s).timestamp = lastTimestamp now (run schedule s).trace := by
  induction schedule generalizing s with
  | nil => exact h
  | cons a schedule ih =>
    apply ih
    cases a with
    | interrupt => exact h
    | connectionLost => exact h
    | newScan scan => exact h
    | main wasStopped => exact timestamp_mainStep now wasStopped s h

/-- C9, as stated, fails: `main` reaches its loop with the clock reading `5`,
a scan with timestamp `5` is published, and the first cycle loads it while
nothing has been rendered yet; the scan is neither converted nor handed to
the viewer. -/
theorem first_scan_rendered_counterexample :
    loads (main (sampleCollaborators 0 (some "10.0.0.5") (some RequestResult.SUCCESS)
      (RequestResult.SUCCESS, some ⟨1⟩))
      [Action.newScan (some ⟨5, [1]⟩), Action.main false, Action.main false,
        Action.main false]).trace = [some ⟨5, [1]⟩] ∧
    converted (main (sampleCollaborators 0 (some "10.0.0.5") (some RequestResult.SUCCESS)
      (RequestResult.SUCCESS, some ⟨1⟩))
      [Action.newScan (some ⟨5, [1]⟩), Action.main false, Action.main false,
        Action.main false]).trace = [] ∧
    rendered (main (sampleCollaborators 0 (some "10.0.0.5") (some RequestResult.SUCCESS)
      (RequestResult.SUCCESS, some ⟨1⟩))
      [Action.newScan (some ⟨5, [1]⟩), Action.main false, Action.main false,
        Action.main false]).trace = [] := by
  decide

/-- C9, amended. In every cycle past its condition in which the load returns
a scan, the scan is converted, handed to the viewer and its timestamp
recorded exactly when its timestamp differs from `lastTimestamp`: the
timestamp of the last scan handed to the viewer or, as long as none was, the
clock reading of line 178. Otherwise the cycle only loads. -/
theorem load_renders_iff_timestamp_new (now : Nat) (entry : List Event)
    (schedule : List Action) (wasStopped : Bool) (scan : Scan)
    (hentry : rendered entry = [])
    (hpc : (run schedule (loopEntry now entry)).pc = Pc.load)
    (hscan : atomic_load (run schedule (loopEntry now entry)).sharedScan = some scan) :
    (scan.getTimestamp ≠ lastTimestamp now (run schedule (loopEntry now entry)).trace →
      (mainStep wasStopped (run schedule (loopEntry now entry))).trace =
        (run schedule (loopEntry now entry)).trace ++
          Event.atomic_load (some scan) :: renderCalls scan ∧
      (mainStep wasStopped (run schedule (loopEntry now entry))).timestamp =
        scan.getTimestamp ∧
      lastTimestamp now (mainStep wasStopped (run schedule (loopEntry now entry))).trace =
        scan.getTimestamp) ∧
    (scan.getTimestamp = lastTimestamp now (run schedule (loopEntry now entry)).trace →
      (mainStep wasStopped (run schedule (loopEntry now entry))).trace =
        (run schedule (loopEntry now entry)).trace ++ [Event.atomic_load (some scan)] ∧
      (mainStep wasStopped (run schedule (loopEntry now entry))).timestamp =
        (run schedule (loopEntry now entry)).timestamp) := by
  have hinv := timestamp_run now schedule (loopEntry now entry)
    (by simp [loopEntry, lastTimestamp, hentry])
  have hnext := timestamp_mainStep now wasStopped _ hinv
  generalize run schedule (loopEntry now entry) = s at *
  rw [← hinv]
  refine ⟨fun hne => ?_, fun heq => ?_⟩
  · have h : (mainStep wasStopped s).trace =
          s.trace ++ Event.atomic_load (some scan) :: renderCalls scan ∧
        (mainStep wasStopped s).timestamp = scan.getTimestamp := by
      simp [mainStep, hpc, hscan, hne, renderCalls]
    exact ⟨h.1, h.2, by rw [← hnext, h.2]⟩
  · simp [mainStep, hpc, hscan, heq]

/-- C9 amended, at a concrete cycle: the clock read `5`, and the first cycle
loads a scan with timestamp `6`. -/
theorem load_renders_iff_timestamp_new_witness :
    (rendered ([] : List Event) = [] ∧
      (run [Action.newScan (some ⟨6, [1]⟩), Action.main false, Action.main false]
        (loopEntry 5 [])).pc = Pc.load ∧
      atomic_load (run [Action.newScan (some ⟨6, [1]⟩), Action.main false, Action.main false]
        (loopEntry 5 [])).sharedScan = some ⟨6, [1]⟩) ∧
    (mainStep false (run [Action.newScan (some ⟨6, [1]⟩), Action.main false,
        Action.main false] (loopEntry 5 []))).trace =
      (run [Action.newScan (some ⟨6, [1]⟩), Action.main false, Action.main false]
        (loopEntry 5 [])).trace ++ Event.atomic_load (some ⟨6, [1]⟩) :: renderCalls ⟨6, [1]⟩ :=
  ⟨⟨rfl, by decide, by decide⟩,
    ((load_renders_iff_timestamp_new 5 []
      [Action.newScan (some ⟨6, [1]⟩), Action.main false, Action.main false] false ⟨6, [1]⟩
      rfl (by decide) (by decide)).1 (by decide)).1⟩

theorem mainStep_spinOnce (wasStopped : Bool) (s : State) (h : s.pc = Pc.spinOnce) :
    (mainStep wasStopped s).pc = Pc.load ∧
      (mainStep wasStopped s).trace = s.trace ++ [Event.spinOnce] := by
  simp [mainStep, h]

/-- C10, as stated, fails: the condition of a cycle passes, the handler
`interrupt` runs before the pump, so that `interruptProgram` is set when
`spinOnce` returns; the cycle still loads the mailbox and renders the scan. -/
theorem stop_check_after_pump_counterexample :
    (run [Action.newScan (some ⟨9, [1]⟩), Action.main false, Action.interrupt,
      Action.main false] (loopEntry 5 [])).pc = Pc.load ∧
    (run [Action.newScan (some ⟨9, [1]⟩), Action.main false, Action.interrupt,
      Action.main false] (loopEntry 5 [])).interruptProgram = true ∧
    (run [Action.newScan (some ⟨9, [1]⟩), Action.main false, Action.interrupt,
      Action.main false, Action.main false] (loopEntry 5 [])).trace =
      [Event.spinOnce, Event.atomic_load (some ⟨9, [1]⟩), Event.convert ⟨9, [1]⟩,
        Event.removePointCloud, Event.addPointCloud ⟨9, [1]⟩,
        Event.setPointCloudRenderingProperties] := by
  decide

theorem mainStep_load_exact (wasStopped : Bool) (s : State) (h : s.pc = Pc.load) :
    (mainStep wasStopped s).pc = Pc.condition ∧
      (mainStep wasStopped s).trace = s.trace ++ cycleBody s.timestamp s.sharedScan := by
  unfold mainStep cycleBody atomic_load
  rw [h]
  simp only
  split
  · rename_i heq
    simp [heq]
  · rename_i sc heq
    split <;> simp_all

theorem stopFlag_prefix (p q : List Action) (s : State)
    (h : stopFlag (run p s) = true) : stopFlag (run (p ++ q) s) = true := by
  rw [run_append]
  exact stopFlag_run q _ h

theorem mainStep_condition_stop (w : Bool) (t : State) (hpc : t.pc = Pc.condition)
    (h : w = true ∨ stopFlag t = true) :
    (mainStep w t).pc = Pc.close ∧ (mainStep w t).trace = t.trace := by
  have hcond : (!w && !t.interruptProgram && !t.deviceHasDisconnected) = false := by
    rcases h with h | h
    · simp [h]
    · simp only [stopFlag, Bool.or_eq_true] at h
      rcases h with h | h <;> simp [h]
  simp [mainStep, hpc, hcond]

theorem mem_cycle_schedule (a x y : Action) (h1 h2 h3 : List Action)
    (h : a ∈ h1 ++ h2 ++ h3) : a ∈ h1 ++ [x] ++ h2 ++ [y] ++ h3 := by
  simp only [List.mem_append] at h ⊢
  rcases h with (h | h) | h
  · exact Or.inl (Or.inl (Or.inl (Or.inl h)))
  · exact Or.inl (Or.inl (Or.inr h))
  · exact Or.inr h

/-- C10, amended. The stop check comes before the pump. At the loop
condition: if the viewer answers stopped or a flag is set, the cycle is not
started, and the next statement of the main thread closes the viewer without
a pump, a load or a rendering. If none is, the cycle is started, and
whatever the signal handler, the callbacks and the viewer do from then on
(`h1`, `h2`, `h3` are runs of handlers and callbacks), the next statement is
the pump, the one after it loads the mailbox and renders the scan it finds
when its timestamp is new, and control is back at the condition; a stop
signal raised since, or a viewer that answers stopped, takes effect at that
next evaluation: the viewer is closed and `main` has returned, with no
further pump or load. -/
theorem stop_check_precedes_pump (s : State) (wasStopped w1 w2 w3 : Bool)
    (h1 h2 h3 rest : List Action) (hpc : s.pc = Pc.condition)
    (hh1 : mainSteps h1 = 0) (hh2 : mainSteps h2 = 0) (hh3 : mainSteps h3 = 0) :
    ((wasStopped = true ∨ s.interruptProgram = true ∨ s.deviceHasDisconnected = true) →
      (mainStep wasStopped s).pc = Pc.close ∧ (mainStep wasStopped s).trace = s.trace ∧
      (1 ≤ mainSteps rest →
        (run rest (mainStep wasStopped s)).pc = Pc.exited ∧
        (run rest (mainStep wasStopped s)).trace = s.trace ++ [Event.viewerClose])) ∧
    ((wasStopped = false ∧ s.interruptProgram = false ∧ s.deviceHasDisconnected = false) →
      (mainStep wasStopped s).pc = Pc.spinOnce ∧ (mainStep wasStopped s).trace = s.trace ∧
      (run (h1 ++ [Action.main w1]) (mainStep wasStopped s)).pc = Pc.load ∧
      (run (h1 ++ [Action.main w1]) (mainStep wasStopped s)).trace =
        s.trace ++ [Event.spinOnce] ∧
      (run (h1 ++ [Action.main w1] ++ h2 ++ [Action.main w2])
        (mainStep wasStopped s)).pc = Pc.condition ∧
      (run (h1 ++ [Action.main w1] ++ h2 ++ [Action.main w2])
        (mainStep wasStopped s)).trace =
        s.trace ++ Event.spinOnce :: cycleBody s.timestamp
          (run (h1 ++ [Action.main w1] ++ h2) (mainStep wasStopped s)).sharedScan ∧
      (∀ scan, (run (h1 ++ [Action.main w1] ++ h2) (mainStep wasStopped s)).sharedScan =
          some scan → scan.getTimestamp ≠ s.timestamp →
        (run (h1 ++ [Action.main w1] ++ h2 ++ [Action.main w2])
          (mainStep wasStopped s)).trace =
          s.trace ++ Event.spinOnce :: Event.atomic_load (some scan) :: renderCalls scan) ∧
      ((w3 = true ∨ Action.interrupt ∈ h1 ++ h2 ++ h3 ∨
          Action.connectionLost ∈ h1 ++ h2 ++ h3) →
        (run (h1 ++ [Action.main w1] ++ h2 ++ [Action.main w2] ++ h3 ++ [Action.main w3])
          (mainStep wasStopped s)).pc = Pc.close ∧
        (run (h1 ++ [Action.main w1] ++ h2 ++ [Action.main w2] ++ h3 ++ [Action.main w3])
          (mainStep wasStopped s)).trace =
          s.trace ++ Event.spinOnce :: cycleBody s.timestamp
            (run (h1 ++ [Action.main w1] ++ h2) (mainStep wasStopped s)).sharedScan ∧
        (1 ≤ mainSteps rest →
          exitStatus (run (h1 ++ [Action.main w1] ++ h2 ++ [Action.main w2] ++ h3 ++
            [Action.main w3] ++ rest) (mainStep wasStopped s)) =
            Status.returned EXIT_SUCCESS ∧
          (run (h1 ++ [Action.main w1] ++ h2 ++ [Action.main w2] ++ h3 ++
            [Action.main w3] ++ rest) (mainStep wasStopped s)).trace =
            s.trace ++ Event.spinOnce :: cycleBody s.timestamp
              (run (h1 ++ [Action.main w1] ++ h2) (mainStep wasStopped s)).sharedScan ++
              [Event.viewerClose]))) := by
  refine ⟨fun hstop => ?_, fun hgo => ?_⟩
  · have hcond : (!wasStopped && !s.interruptProgram && !s.deviceHasDisconnected) = false := by
      rcases hstop with h | h | h <;> simp [h]
    have e1 : (mainStep wasStopped s).pc = Pc.close := by simp [mainStep, hpc, hcond]
    have e2 : (mainStep wasStopped s).trace = s.trace := by simp [mainStep, hpc, hcond]
    refine ⟨e1, e2, fun hsteps => ?_⟩
    obtain ⟨c1, c2⟩ := run_close rest _ e1 hsteps
    exact ⟨c1, by rw [c2, e2]⟩
  · obtain ⟨hw, hi, hd⟩ := hgo
    have e1 : (mainStep wasStopped s).pc = Pc.spinOnce := by simp [mainStep, hpc, hw, hi, hd]
    have e2 : (mainStep wasStopped s).trace = s.trace := by simp [mainStep, hpc, hw, hi, hd]
    have e3 : (mainStep wasStopped s).timestamp = s.timestamp := by
      simp [mainStep, hpc, hw, hi, hd]
    generalize mainStep wasStopped s = s1 at e1 e2 e3 ⊢
    -- the pump
    obtain ⟨a1, a2, a3, _⟩ := run_handlers h1 s1 hh1
    obtain ⟨b1, b2⟩ := mainStep_spinOnce w1 (run h1 s1) (by rw [a1, e1])
    have b3 : (mainStep w1 (run h1 s1)).timestamp = s.timestamp := by
      have : (run h1 s1).pc = Pc.spinOnce := by rw [a1, e1]
      simp [mainStep, this, a3, e3]
    have rA : run (h1 ++ [Action.main w1]) s1 = mainStep w1 (run h1 s1) := by
      rw [run_append]; rfl
    -- the load
    obtain ⟨c1, c2, c3, _⟩ := run_handlers h2 (run (h1 ++ [Action.main w1]) s1) hh2
    have rB0 : run (h1 ++ [Action.main w1] ++ h2) s1 =
        run h2 (run (h1 ++ [Action.main w1]) s1) := by rw [run_append]
    obtain ⟨d1, d2⟩ := mainStep_load_exact w2 (run (h1 ++ [Action.main w1] ++ h2) s1)
      (by rw [rB0, c1, rA, b1])
    have rB : run (h1 ++ [Action.main w1] ++ h2 ++ [Action.main w2]) s1 =
        mainStep w2 (run (h1 ++ [Action.main w1] ++ h2) s1) := by
      rw [run_append]; rfl
    have tB : (run (h1 ++ [Action.main w1] ++ h2 ++ [Action.main w2]) s1).trace =
        s.trace ++ Event.spinOnce :: cycleBody s.timestamp
          (run (h1 ++ [Action.main w1] ++ h2) s1).sharedScan := by
      rw [rB, d2, rB0, c2, c3, rA, b2, b3, a2, e2]
      simp
    refine ⟨e1, e2, by rw [rA, b1], by rw [rA, b2, a2, e2], by rw [rB, d1], tB, ?_, ?_⟩
    · intro scan hscan hne
      rw [tB, hscan]
      simp [cycleBody, hne, renderCalls]
    · intro hstop
      -- the next evaluation of the condition
      obtain ⟨f1, f2, _, _⟩ := run_handlers h3
        (run (h1 ++ [Action.main w1] ++ h2 ++ [Action.main w2]) s1) hh3
      have rC0 : run (h1 ++ [Action.main w1] ++ h2 ++ [Action.main w2] ++ h3) s1 =
          run h3 (run (h1 ++ [Action.main w1] ++ h2 ++ [Action.main w2]) s1) := by
        rw [run_append]
      have rC : run (h1 ++ [Action.main w1] ++ h2 ++ [Action.main w2] ++ h3 ++
          [Action.main w3]) s1 =
          mainStep w3 (run (h1 ++ [Action.main w1] ++ h2 ++ [Action.main w2] ++ h3) s1) := by
        rw [run_append]; rfl
      have g0 : (run (h1 ++ [Action.main w1] ++ h2 ++ [Action.main w2] ++ h3) s1).pc =
          Pc.condition := by rw [rC0, f1, rB, d1]
      have hcause : w3 = true ∨
          stopFlag (run (h1 ++ [Action.main w1] ++ h2 ++ [Action.main w2] ++ h3) s1) = true := by
        rcases hstop with h | h | h
        · exact Or.inl h
        · exact Or.inr (stopFlag_of_mem _ _ (Or.inl (mem_cycle_schedule _ _ _ _ _ _ h)))
        · exact Or.inr (stopFlag_of_mem _ _ (Or.inr (mem_cycle_schedule _ _ _ _ _ _ h)))
      obtain ⟨g1', g2'⟩ := mainStep_condition_stop w3 _ g0 hcause
      have g1 : (run (h1 ++ [Action.main w1] ++ h2 ++ [Action.main w2] ++ h3 ++
          [Action.main w3]) s1).pc = Pc.close := by
        rw [rC]; exact g1'
      have g2 : (run (h1 ++ [Action.main w1] ++ h2 ++ [Action.main w2] ++ h3 ++
          [Action.main w3]) s1).trace = s.trace ++ Event.spinOnce :: cycleBody s.timestamp
            (run (h1 ++ [Action.main w1] ++ h2) s1).sharedScan := by
        rw [rC, g2', rC0, f2, tB]
      refine ⟨g1, g2, fun hsteps => ?_⟩
      rw [run_append (h1 ++ [Action.main w1] ++ h2 ++ [Action.main w2] ++ h3 ++
        [Action.main w3]) rest]
      obtain ⟨k1, k2⟩ := run_close rest _ g1 hsteps
      refine ⟨by rw [exitStatus, k1]; rfl, ?_⟩
      rw [k2, g2, List.append_assoc]

/-- C10 amended, at a concrete cycle: the condition passes, the handler
`interrupt` runs before the pump and a scan with a new timestamp arrives
during it; the cycle pumps, loads and renders the scan, and the next
evaluation of the condition closes the viewer. -/
theorem stop_check_precedes_pump_witness :
    ((loopEntry 5 []).pc = Pc.condition ∧ mainSteps [Action.interrupt] = 0 ∧
      mainSteps [Action.newScan (some ⟨9, [1]⟩)] = 0 ∧ mainSteps [] = 0) ∧
    (run ([Action.interrupt] ++ [Action.main false] ++ [Action.newScan (some ⟨9, [1]⟩)] ++
        [Action.main false] ++ [] ++ [Action.main false] ++ [Action.main false])
      (mainStep false (loopEntry 5 []))).trace =
      [] ++ Event.spinOnce :: cycleBody (loopEntry 5 []).timestamp
        (run ([Action.interrupt] ++ [Action.main false] ++ [Action.newScan (some ⟨9, [1]⟩)])
          (mainStep false (loopEntry 5 []))).sharedScan ++ [Event.viewerClose]  := by
  refine ⟨⟨by decide, by decide, by decide, by decide⟩, ?_⟩
  have h := (stop_check_precedes_pump (loopEntry 5 []) false false false false
    [Action.interrupt] [Action.newScan (some ⟨9, [1]⟩)] [] [Action.main false]
    (by decide) (by decide) (by decide) (by decide)).2 ⟨rfl, rfl, rfl⟩
  exact ((h.2.2.2.2.2.2.2 (Or.inr (Or.inl (by decide)))).2.2 (by decide)).2

/-! ## The mailbox: `sharedScan`, the store of the callback, the load of the loop -/

theorem sharedScan_mainStep (wasStopped : Bool) (s : State) :
    (mainStep wasStopped s).sharedScan = s.sharedScan := by
  unfold mainStep
  split
  · split <;> rfl
  · rfl
  · split
    · rfl
    · split <;> rfl
  · rfl
  · rfl

/-- The slot holds the latest published value, or what it held at first. -/
theorem sharedScan_run (schedule : List Action) (s : State) :
    (run schedule s).sharedScan = (published schedule).getLast?.getD s.sharedScan := by
  induction schedule generalizing s with
  | nil => rfl
  | cons a schedule ih =>
    rw [run_cons, ih]
    cases a with
    | interrupt => rfl
    | connectionLost => rfl
    | newScan scan =>
      simp only [published, List.getLast?_cons, step, atomic_store]
      cases (published schedule).getLast? <;> rfl
    | main wasStopped =>
      simp only [published, step, sharedScan_mainStep]

theorem published_append (p q : List Action) :
    published (p ++ q) = published p ++ published q := by
  induction p with
  | nil => rfl
  | cons a p ih => cases a <;> simp [published, ih]

theorem loads_cycleBody (timestamp : Nat) (scan : SharedScan) :
    loads (cycleBody timestamp scan) = [scan] := by
  unfold cycleBody
  split
  · rfl
  · split <;> rfl

/-- C1. Sequential mailbox, on the program itself: publish is the new-scan
callback (`Action.newScan`), peek is the load statement of the loop. From
the loop entry, where `sharedScan` is empty, along any schedule `before`
whose published values are all non-null and that brings the main thread to
its load statement: the load returns absent when nothing was published
before it, and otherwise the value of the latest publish, which is not
absent; and the load leaves the mailbox as it was, so that after any
schedule `between` without a publish the mailbox still holds what this load
returned. -/
theorem mailbox_peek_returns_latest_publish (now : Nat) (entry : List Event)
    (before between : List Action) (wasStopped : Bool)
    (hfull : ∀ v ∈ published before, v ≠ none)
    (hpc : (run before (loopEntry now entry)).pc = Pc.load)
    (hquiet : published between = []) :
    (published before = [] →
      loads (run (before ++ [Action.main wasStopped]) (loopEntry now entry)).trace =
        loads (run before (loopEntry now entry)).trace ++ [none]) ∧
    (∀ v, (published before).getLast? = some v →
      v ≠ none ∧
      loads (run (before ++ [Action.main wasStopped]) (loopEntry now entry)).trace =
        loads (run before (loopEntry now entry)).trace ++ [v]) ∧
    (run (before ++ [Action.main wasStopped] ++ between) (loopEntry now entry)).sharedScan =
      (run before (loopEntry now entry)).sharedScan ∧
    (∃ returned,
      loads (run (before ++ [Action.main wasStopped]) (loopEntry now entry)).trace =
        loads (run before (loopEntry now entry)).trace ++ [returned] ∧
      (run (before ++ [Action.main wasStopped] ++ between)
        (loopEntry now entry)).sharedScan = returned) := by
  have hslot := sharedScan_run before (loopEntry now entry)
  have hstep : run (before ++ [Action.main wasStopped]) (loopEntry now entry) =
      mainStep wasStopped (run before (loopEntry now entry)) := by
    rw [run_append]; rfl
  have hloads : loads (run (before ++ [Action.main wasStopped]) (loopEntry now entry)).trace =
      loads (run before (loopEntry now entry)).trace ++
        [(run before (loopEntry now entry)).sharedScan] := by
    rw [hstep, (mainStep_load_exact wasStopped _ hpc).2, loads_append, loads_cycleBody]
  have hkeep : (run (before ++ [Action.main wasStopped] ++ between)
      (loopEntry now entry)).sharedScan = (run before (loopEntry now entry)).sharedScan := by
    rw [run_append, sharedScan_run between, hquiet, hstep, sharedScan_mainStep]
    rfl
  refine ⟨fun h => ?_, fun v hv => ⟨?_, ?_⟩, hkeep, _, hloads, hkeep⟩
  · rw [hloads, hslot, h]
    rfl
  · exact hfull v (List.mem_of_getLast?_eq_some hv)
  · rw [hloads, hslot, hv]
    rfl

/-- C1, at a concrete schedule: a scan is published, the loop passes its
condition and pumps, a second scan is published, and the load under test
returns the second scan. -/
theorem mailbox_peek_returns_latest_publish_witness :
    ((∀ v ∈ published [Action.newScan (some ⟨1, [7]⟩), Action.main false, Action.main false,
        Action.newScan (some ⟨2, [8]⟩)], v ≠ none) ∧
      (run [Action.newScan (some ⟨1, [7]⟩), Action.main false, Action.main false,
        Action.newScan (some ⟨2, [8]⟩)] (loopEntry 5 [])).pc = Pc.load ∧
      published [Action.interrupt] = []) ∧
    loads (run ([Action.newScan (some ⟨1, [7]⟩), Action.main false, Action.main false,
        Action.newScan (some ⟨2, [8]⟩)] ++ [Action.main false]) (loopEntry 5 [])).trace =
      loads (run [Action.newScan (some ⟨1, [7]⟩), Action.main false, Action.main false,
        Action.newScan (some ⟨2, [8]⟩)] (loopEntry 5 [])).trace ++ [some ⟨2, [8]⟩] :=
  ⟨⟨by decide, by decide, rfl⟩,
    ((mailbox_peek_returns_latest_publish 5 []
      [Action.newScan (some ⟨1, [7]⟩), Action.main false, Action.main false,
        Action.newScan (some ⟨2, [8]⟩)] [Action.interrupt] false
      (by decide) (by decide) rfl).2.1 (some ⟨2, [8]⟩) (by decide)).2⟩

end TcpAcquisition
